import Mathlib

/-!
Verification of the OAuth authorization core of the airtable-mcp-server
repository: a shallow embedding of the PKCE utilities
(src/mcp_oauth_lib/utils/pkce.py), the state utilities
(src/mcp_oauth_lib/utils/state.py), the token holder of the Airtable
provider (src/mcp_oauth_lib/providers/airtable.py) and the flow
orchestrator (src/mcp_oauth_lib/core/flow.py), together with theorems
about the protocol invariants: dual PKCE validation, single-use state
and authorization-code records, expiry on consumption, and the shape of
error responses.

Conventions of the embedding:
- Python dictionaries keyed by strings become association lists
  (see Dict below) with get / insert / pop operations.
- time.time() becomes an explicit integer argument now (epoch seconds).
- Python truthiness of optional strings (None and the empty string are
  falsy) is modelled by truthyS, used exactly where the source tests
  an optional string with an if.
- Randomness (secrets.choice, secrets.token_urlsafe) becomes explicit
  arguments: a stream of indices for verifier generation, and the
  generated state token itself.
- The downstream provider call in exchange becomes a function argument;
  a raised exception of the provider is an Except.error carrying the
  exception message (str(e) in the source), success is Except.ok.
- Responses (starlette JSONResponse / RedirectResponse) become the Resp
  inductive, keeping the HTTP status and the error / error_description
  fields of the JSON body, since the claims are about those.
-/

namespace OAuthCore

/-! ## Association-list model of Python dict (string keys) -/

abbrev Dict (α : Type) : Type := List (String × α)

def dictGet {α : Type} (d : Dict α) (k : String) : Option α :=
  match d with
  | [] => none
  | (k', v) :: t => if k' = k then some v else dictGet t k

def dictErase {α : Type} (d : Dict α) (k : String) : Dict α :=
  match d with
  | [] => []
  | (k', v) :: t => if k' = k then dictErase t k else (k', v) :: dictErase t k

def dictInsert {α : Type} (d : Dict α) (k : String) (v : α) : Dict α :=
  (k, v) :: dictErase d k

/-- Python `d.pop(k)` guarded by `k in d`: returns the value and the
remaining dictionary, or none when the key is absent. -/
def dictPop {α : Type} (d : Dict α) (k : String) : Option (α × Dict α) :=
  match dictGet d k with
  | none => none
  | some v => some (v, dictErase d k)

theorem dictGet_erase_self {α : Type} (d : Dict α) (k : String) :
    dictGet (dictErase d k) k = none := by
  induction d with
  | nil => rfl
  | cons p t ih =>
    obtain ⟨k', v⟩ := p
    by_cases h : k' = k
    · simp [dictErase, h, ih]
    · simp [dictErase, dictGet, h, ih]

theorem dictGet_insert_self {α : Type} (d : Dict α) (k : String) (v : α) :
    dictGet (dictInsert d k v) k = some v := by
  simp [dictInsert, dictGet]

theorem dictPop_some {α : Type} {d : Dict α} {k : String} {v : α} {d' : Dict α}
    (h : dictPop d k = some (v, d')) :
    dictGet d k = some v ∧ d' = dictErase d k := by
  unfold dictPop at h
  cases hg : dictGet d k with
  | none => rw [hg] at h; exact absurd h (by simp)
  | some w =>
    rw [hg] at h
    simp only [Option.some.injEq, Prod.mk.injEq] at h
    refine ⟨?_, h.2.symm⟩
    rw [h.1]

theorem dictPop_get {α : Type} {d : Dict α} {k : String} {v : α} {d' : Dict α}
    (h : dictPop d k = some (v, d')) : dictGet d' k = none := by
  rw [(dictPop_some h).2]
  exact dictGet_erase_self d k

/-! ## Python truthiness of optional strings -/

/-- Python truthiness of an optional string: None and the empty string
are falsy, every other string is truthy. -/
def truthyS (o : Option String) : Bool :=
  match o with
  | none => false
  | some s => !s.isEmpty

/-! ## SHA-256 and base64url (the hashlib / base64 calls of pkce.py) -/

def w32 (x : Nat) : Nat := x % 4294967296

def rotr32 (n x : Nat) : Nat :=
  w32 (x / 2 ^ n + x % 2 ^ n * 2 ^ (32 - n))

def ch32 (x y z : Nat) : Nat := (x &&& y) ^^^ ((4294967295 - w32 x) &&& z)

def maj32 (x y z : Nat) : Nat := (x &&& y) ^^^ (x &&& z) ^^^ (y &&& z)

def bigSigma0 (x : Nat) : Nat := rotr32 2 x ^^^ rotr32 13 x ^^^ rotr32 22 x

def bigSigma1 (x : Nat) : Nat := rotr32 6 x ^^^ rotr32 11 x ^^^ rotr32 25 x

def smallSigma0 (x : Nat) : Nat := rotr32 7 x ^^^ rotr32 18 x ^^^ x / 8

def smallSigma1 (x : Nat) : Nat := rotr32 17 x ^^^ rotr32 19 x ^^^ x / 1024

/-- The 64 SHA-256 round constants, written in decimal. -/
def sha256K : List Nat :=
  [1116352408, 1899447441, 3049323471, 3921009573, 961987163,
   1508970993, 2453635748, 2870763221, 3624381080, 310598401,
   607225278, 1426881987, 1925078388, 2162078206, 2614888103,
   3248222580, 3835390401, 4022224774, 264347078, 604807628,
   770255983, 1249150122, 1555081692, 1996064986, 2554220882,
   2821834349, 2952996808, 3210313671, 3336571891, 3584528711,
   113926993, 338241895, 666307205, 773529912, 1294757372,
   1396182291, 1695183700, 1986661051, 2177026350, 2456956037,
   2730485921, 2820302411, 3259730800, 3345764771, 3516065817,
   3600352804, 4094571909, 275423344, 430227734, 506948616,
   659060556, 883997877, 958139571, 1322822218, 1537002063,
   1747873779, 1955562222, 2024104815, 2227730452, 2361852424,
   2428436474, 2756734187, 3204031479, 3329325298]

/-- The SHA-256 initial hash state, written in decimal. -/
def sha256H0 : List Nat :=
  [1779033703, 3144134277, 1013904242, 2773480762,
   1359893119, 2600822924, 528734635, 1541459225]

def scheduleStep (ws : Array Nat) : Array Nat :=
  let n := ws.size
  ws.push (w32 (smallSigma1 (ws.getD (n - 2) 0) + ws.getD (n - 7) 0 +
    smallSigma0 (ws.getD (n - 15) 0) + ws.getD (n - 16) 0))

def extendSchedule : Nat → Array Nat → Array Nat
  | 0, ws => ws
  | Nat.succ n, ws => extendSchedule n (scheduleStep ws)

def compressStep (st : List Nat) (kw : Nat × Nat) : List Nat :=
  match st with
  | [a, b, c, d, e, f, g, h] =>
    let t1 := w32 (h + bigSigma1 e + ch32 e f g + kw.1 + kw.2)
    let t2 := w32 (bigSigma0 a + maj32 a b c)
    [w32 (t1 + t2), a, b, c, w32 (d + t1), e, f, g]
  | other => other

def blockWords (b : List Nat) : List Nat :=
  (List.range 16).map fun i =>
    b.getD (4 * i) 0 * 16777216 + b.getD (4 * i + 1) 0 * 65536 +
      b.getD (4 * i + 2) 0 * 256 + b.getD (4 * i + 3) 0

def processBlock (h : List Nat) (b : List Nat) : List Nat :=
  let ws := extendSchedule 48 (Array.mk (blockWords b))
  let st := (sha256K.zip ws.toList).foldl compressStep h
  List.zipWith (fun x y => w32 (x + y)) h st

def toBytesBE : Nat → Nat → List Nat
  | 0, _ => []
  | Nat.succ k, n => toBytesBE k (n / 256) ++ [n % 256]

def padMessage (bs : List Nat) : List Nat :=
  bs ++ [128] ++ List.replicate ((119 - bs.length % 64) % 64) 0 ++
    toBytesBE 8 (bs.length * 8)

def splitChunksAux : Nat → List Nat → List (List Nat)
  | 0, _ => []
  | Nat.succ f, bs =>
    if bs.isEmpty then [] else bs.take 64 :: splitChunksAux f (bs.drop 64)

def splitChunks (bs : List Nat) : List (List Nat) :=
  splitChunksAux bs.length bs

/-- SHA-256 of a byte list, as a 32-byte list (hashlib.sha256(...).digest()). -/
def sha256 (bs : List Nat) : List Nat :=
  ((splitChunks (padMessage bs)).foldl processBlock sha256H0).flatMap
    (toBytesBE 4)

/-- UTF-8 encoding of one character (str.encode in Python). -/
def utf8EncodeCharNat (c : Char) : List Nat :=
  let n := c.toNat
  if n < 128 then [n]
  else if n < 2048 then [192 + n / 64, 128 + n % 64]
  else if n < 65536 then [224 + n / 4096, 128 + n / 64 % 64, 128 + n % 64]
  else [240 + n / 262144, 128 + n / 4096 % 64, 128 + n / 64 % 64, 128 + n % 64]

def utf8Bytes (s : String) : List Nat :=
  s.data.flatMap utf8EncodeCharNat

def b64urlAlphabet : String :=
  "ABCDEFGHIJKLMNOPQRSTUVWXYZabcdefghijklmnopqrstuvwxyz0123456789-_"

def b64Char (n : Nat) : Char := b64urlAlphabet.data.getD n 'A'

/-- base64.urlsafe_b64encode without padding (the source strips the
trailing = characters). -/
def base64urlNoPad : List Nat → List Char
  | [] => []
  | [a] => [b64Char (a / 4), b64Char (a % 4 * 16)]
  | [a, b] => [b64Char (a / 4), b64Char (a % 4 * 16 + b / 16), b64Char (b % 16 * 4)]
  | a :: b :: c :: rest =>
    b64Char (a / 4) :: b64Char (a % 4 * 16 + b / 16) ::
      b64Char (b % 16 * 4 + c / 64) :: b64Char (c % 64) :: base64urlNoPad rest

/-- The S256 code challenge of a verifier:
base64url-no-pad of SHA-256 of the UTF-8 bytes. -/
def s256Challenge (verifier : String) : String :=
  String.mk (base64urlNoPad (sha256 (utf8Bytes verifier)))

/-- Test vector pinning sha256 to FIPS 180-4: the digest of the
three-byte message abc. -/
theorem sha256_fips_abc_vector :
    sha256 (utf8Bytes "abc") =
      [186, 120, 22, 191, 143, 1, 207, 234, 65, 65, 64, 222, 93, 174, 34, 35,
       176, 3, 97, 163, 150, 23, 122, 156, 180, 16, 255, 97, 242, 0, 21, 173] := by
  decide

/-- Test vector pinning s256Challenge to the hashlib.sha256 +
base64url-no-pad computation of pkce.py: the canonical RFC 7636
appendix B verifier maps to the canonical challenge. -/
theorem s256Challenge_rfc7636_vector :
    s256Challenge "dBjftJeZ4CVP-mB92K27uhbUJU1p1r_wW1gFWFOEjXk" =
      "E9Melhoa2OwvFrEMTJguCHaoeK1t8URWbuGJSstw-cM" := by
  decide

/-! ## PKCE engine (utils/pkce.py) -/

/-- RFC 7636 default character set of generate_pkce_pair:
string.ascii_letters + string.digits + the four extra characters. -/
def RFC7636_CHARSET : String :=
  "abcdefghijklmnopqrstuvwxyzABCDEFGHIJKLMNOPQRSTUVWXYZ0123456789-._~"

/-- generate_pkce_pair of pkce.py. The secrets.choice calls are modelled
by the index stream rand: draw i selects character rand i mod the charset
size, which like secrets.choice always yields an element of the charset;
on an empty charset secrets.choice raises IndexError, modelled by the
error branch. A raised ValueError is the Except.error carrying its
message. -/
def generate_pkce_pair (method : String) (length : Nat)
    (character_set : Option String) (rand : Nat → Nat) :
    Except String (String × String) :=
  if length < 43 ∨ length > 128 then
    .error "Code verifier length must be between 43 and 128 characters"
  else
    let cs := (character_set.getD RFC7636_CHARSET).data
    if cs.isEmpty then
      .error "IndexError: Cannot choose from an empty sequence"
    else
      let code_verifier : String :=
        String.mk ((List.range length).map fun i => cs.getD (rand i % cs.length) 'a')
      if method = "S256" then
        .ok (code_verifier, s256Challenge code_verifier)
      else if method = "plain" then
        .ok (code_verifier, code_verifier)
      else
        .error ("Unsupported PKCE method: " ++ method)

/-- PKCE requirements dictionary handed out by a provider
(get_pkce_requirements); only the keys read by the pkce utilities. -/
structure PkceRequirements where
  min_length : Option Nat
  max_length : Option Nat
  character_set : Option String

/-- generate_provider_compatible_pkce of pkce.py: reads the requirement
keys with defaults 43 / 128 and uses max_length as the length. -/
def generate_provider_compatible_pkce (reqs : PkceRequirements) (method : String)
    (rand : Nat → Nat) : Except String (String × String) :=
  let _min_length := reqs.min_length.getD 43
  let max_length := reqs.max_length.getD 128
  let length := max_length
  generate_pkce_pair method length reqs.character_set rand

/-- Body of the try block of validate_pkce: recompute the challenge and
compare; an unsupported method logs and returns false. None of the
operations of the body can raise on string inputs, so the body never
yields an error; the Except type records where a raise would be caught. -/
def validate_pkce_body (code_verifier code_challenge method : String) :
    Except String Bool :=
  if method = "S256" then
    .ok (s256Challenge code_verifier == code_challenge)
  else if method = "plain" then
    .ok (code_verifier == code_challenge)
  else
    .ok false

/-- validate_pkce of pkce.py: the except clause turns any raised
exception of the body into false. -/
def validate_pkce (code_verifier code_challenge method : String) : Bool :=
  match validate_pkce_body code_verifier code_challenge method with
  | .ok b => b
  | .error _ => false

/-! ## State utilities (utils/state.py) -/

/-- is_entry_expired of state.py, on the created_at field of an entry:
time.time() - created_at > expiry_seconds. -/
def is_entry_expired (created_at : Int) (expiry_seconds : Int) (now : Int) : Bool :=
  decide (now - created_at > expiry_seconds)

/-! ## Token holder (providers/airtable.py) -/

def TOKEN_EXPIRY_MARGIN : Int := 300

/-- The mutable token fields of AirtableOAuthProvider. -/
structure TokenHolder where
  access_token : Option String
  refresh_token : Option String
  expires_at : Option Int
deriving Repr, DecidableEq

/-- Python truthiness of an optional number: None and zero are falsy. -/
def truthyI (o : Option Int) : Bool :=
  match o with
  | none => false
  | some n => decide (n ≠ 0)

/-- is_token_expired of AirtableOAuthProvider: true when access token or
expiry is falsy, else when now + margin ≥ expires_at. -/
def is_token_expired (h : TokenHolder) (now : Int) : Bool :=
  if !truthyS h.access_token || !truthyI h.expires_at then
    true
  else
    decide (now + TOKEN_EXPIRY_MARGIN ≥ h.expires_at.getD 0)

/-! ## Flow orchestrator data model (core/flow.py) -/

/-- One entry of the _active_states dictionary, with the keys stored by
initiate_authorization; client_redirect_uri is none when the key is
absent from the Python dictionary. -/
structure StateInfo where
  created_at : Int
  user_id : Option String
  client_ip : Option String
  client_code_challenge : Option String
  client_code_challenge_method : Option String
  provider_code_verifier : Option String
  provider_code_challenge : Option String
  provider_code_challenge_method : Option String
  client_redirect_uri : Option String
deriving Repr, DecidableEq

/-- One entry of the _active_codes dictionary, with the keys stored by
handle_callback. -/
structure AuthCodeData where
  code : String
  state : String
  user_id : Option String
  created_at : Int
  client_code_challenge : Option String
  client_code_challenge_method : Option String
  provider_code_verifier : Option String
deriving Repr, DecidableEq

/-- The expiry-relevant fields of OAuthConfig (core/config.py). -/
structure OAuthConfig where
  state_expiry_seconds : Int := 600
  auth_code_expiry_seconds : Int := 600
deriving Repr, DecidableEq

/-- The two mutable dictionaries of an OAuthFlow instance. -/
structure FlowState where
  active_states : Dict StateInfo
  active_codes : Dict AuthCodeData
deriving Repr, DecidableEq

abbrev TokenData := List (String × String)

/-- Observable responses of the flow handlers: a JSON error body with
its HTTP status and the error / error_description fields, the verbatim
token payload (status 200), a redirect to the client redirect URI (the
urlencode serialization is abstracted to its key/value list), and the
JSON success body of the callback carrying code and state. -/
inductive Resp where
  | json (status : Nat) (error : String) (description : String)
  | tokenPayload (token_data : TokenData)
  | redirect (url : String) (params : List (String × String))
  | callbackSuccess (code : String) (state : String)
deriving Repr, DecidableEq

/-! ## initiate_authorization (core/flow.py) -/

/-- The query parameters read by initiate_authorization. -/
structure QueryParams where
  code_challenge : Option String
  code_challenge_method : Option String
  redirect_uri : Option String
deriving Repr, DecidableEq

/-- Result of initiate_authorization: a 302 redirect to the URL built by
provider.get_authorization_url(state, challenge, method), recorded by
its three arguments since the URL string belongs to the provider, or an
HTTPException status / detail. -/
inductive InitResult where
  | redirect (state : String) (provider_code_challenge : Option String)
      (provider_code_challenge_method : Option String)
  | httpError (status : Nat) (detail : String)
deriving Repr, DecidableEq

structure InitOut where
  flow : FlowState
  res : InitResult
deriving Repr, DecidableEq

/-- The state dictionary entry stored by initiate_authorization. -/
def initiate_state_record (now : Int) (q : QueryParams)
    (user_id client_ip : Option String)
    (pv pc pm : Option String) : StateInfo :=
  { created_at := now
    user_id := user_id
    client_ip := client_ip
    client_code_challenge := q.code_challenge
    client_code_challenge_method := q.code_challenge_method
    provider_code_verifier := pv
    provider_code_challenge := pc
    provider_code_challenge_method := pm
    client_redirect_uri :=
      if truthyS q.redirect_uri then q.redirect_uri else none }

/-- Body of the try block of initiate_authorization: the raised
HTTPException(400) messages and the ValueError of the generator become
Except.error (all are caught by the outer except). -/
def initiate_inner (reqs : PkceRequirements) (now : Int) (flow : FlowState)
    (q : QueryParams) (user_id : Option String) (client_ip : Option String)
    (state : String) (rand : Nat → Nat) : Except String InitOut :=
  let cc := q.code_challenge
  let ccm := q.code_challenge_method
  let m := ccm.getD ""
  let store : Option String → Option String → Option String → InitOut :=
    fun pv pc pm =>
      let state_info := initiate_state_record now q user_id client_ip pv pc pm
      ⟨{ flow with active_states := dictInsert flow.active_states state state_info },
        InitResult.redirect state pc pm⟩
  let withProviderPkce : Except String InitOut :=
    match generate_provider_compatible_pkce reqs m rand with
    | .error e => .error e
    | .ok (pv, pc) => .ok (store (some pv) (some pc) ccm)
  if truthyS cc && truthyS ccm then
    if m = "S256" ∨ m = "plain" then
      withProviderPkce
    else
      .error ("Unsupported PKCE code challenge method: " ++ m)
  else if truthyS cc || truthyS ccm then
    .error "Both code_challenge and code_challenge_method must be provided together for PKCE"
  else
    .ok (store none none none)

/-- initiate_authorization of OAuthFlow: the outer except turns any
exception, including the 400 HTTPExceptions raised inside the try, into
HTTPException(500, "Failed to initiate OAuth authorization"), leaving
the dictionaries untouched. -/
def initiate_authorization (reqs : PkceRequirements) (now : Int)
    (flow : FlowState) (q : QueryParams) (user_id : Option String)
    (client_ip : Option String) (state : String) (rand : Nat → Nat) : InitOut :=
  match initiate_inner reqs now flow q user_id client_ip state rand with
  | .ok out => out
  | .error _ => ⟨flow, InitResult.httpError 500 "Failed to initiate OAuth authorization"⟩

/-! ## handle_callback (core/flow.py) -/

structure CallbackOut where
  flow : FlowState
  resp : Resp
deriving Repr, DecidableEq

/-- The authorization code dictionary entry stored by handle_callback:
user_id and both PKCE sides are copied from the consumed state record. -/
def auth_code_record (now : Int) (code state : String) (si : StateInfo) :
    AuthCodeData :=
  { code := code
    state := state
    user_id := si.user_id
    created_at := now
    client_code_challenge := si.client_code_challenge
    client_code_challenge_method := si.client_code_challenge_method
    provider_code_verifier := si.provider_code_verifier }

/-- Continuation of handle_callback after the state record was popped:
flow' is the flow with the record already removed. The expiry check runs
on the popped record; on success the authorization code record is stored
under the provider code and the response is either a redirect to the
recorded client redirect URI or the JSON success body. -/
def callback_with_record (cfg : OAuthConfig) (now : Int) (flow' : FlowState)
    (state_info : StateInfo) (code state : String) : CallbackOut :=
      if is_entry_expired state_info.created_at cfg.state_expiry_seconds now then
        ⟨flow', Resp.json 400 "expired_state" "State parameter has expired"⟩
      else
        let auth_code_data := auth_code_record now code state state_info
        let flow2 : FlowState :=
          { flow' with active_codes := dictInsert flow'.active_codes code auth_code_data }
        if truthyS state_info.client_redirect_uri then
          let base := [("code", code), ("state", state)]
          let redirect_params :=
            if truthyS state_info.client_code_challenge then
              base ++ [("code_challenge", state_info.client_code_challenge.getD ""),
                       ("code_challenge_method",
                         state_info.client_code_challenge_method.getD "")]
            else base
          ⟨flow2, Resp.redirect (state_info.client_redirect_uri.getD "") redirect_params⟩
        else
          ⟨flow2, Resp.callbackSuccess code state⟩

/-- handle_callback of OAuthFlow. The error parameter is tested for
Python truthiness; the state record is popped before the expiry check
(see callback_with_record for the continuation). -/
def handle_callback (cfg : OAuthConfig) (now : Int) (flow : FlowState)
    (code state : String) (error : Option String) : CallbackOut :=
  if truthyS error then
    ⟨flow, Resp.json 400 (error.getD "") "Authorization failed"⟩
  else
    match dictPop flow.active_states state with
    | none =>
      ⟨flow, Resp.json 400 "invalid_state" "Invalid or expired state parameter"⟩
    | some (state_info, states') =>
      callback_with_record cfg now { flow with active_states := states' }
        state_info code state

/-! ## exchange_code_for_tokens (core/flow.py) -/

/-- The downstream provider.exchange_code_for_tokens(code, verifier,
state) call: ok (success, token_data) mirrors its return value, error
msg models a raised exception whose str is msg. -/
abbrev ExchangeAdapter :=
  String → Option String → Option String → Except String (Bool × Option TokenData)

/-- Output of the exchange handler; adapterCall records the arguments of
the downstream provider call when one was made. -/
structure ExchangeOut where
  flow : FlowState
  resp : Resp
  adapterCall : Option (String × Option String × Option String)
deriving Repr, DecidableEq

/-- Python truthiness of the optional token_data dictionary: None and
the empty dictionary are falsy. -/
def tokenTruthy (o : Option TokenData) : Bool :=
  match o with
  | none => false
  | some l => !l.isEmpty

/-- The provider call step of exchange_code_for_tokens: call
adapter.exchange_code_for_tokens with the stored provider verifier and
state; a falsy result is 400 invalid_grant, a raised exception is caught
by the outer except as 500 server_error with str(e) as the
description. -/
def exchange_call_provider (adapter : ExchangeAdapter) (flow' : FlowState)
    (auth_data : AuthCodeData) (code : String) : ExchangeOut :=
  match adapter code auth_data.provider_code_verifier (some auth_data.state) with
  | .error msg =>
    ⟨flow', Resp.json 500 "server_error" msg,
      some (code, auth_data.provider_code_verifier, some auth_data.state)⟩
  | .ok (success, token_data) =>
    if !success || !tokenTruthy token_data then
      ⟨flow', Resp.json 400 "invalid_grant" "Failed to exchange code for tokens",
        some (code, auth_data.provider_code_verifier, some auth_data.state)⟩
    else
      ⟨flow', Resp.tokenPayload (token_data.getD []),
        some (code, auth_data.provider_code_verifier, some auth_data.state)⟩

/-- Continuation of exchange_code_for_tokens after the code record was
popped: flow' is the flow with the record already removed. Expiry check
on the popped record; when the record carries truthy client challenge
and method, a truthy code_verifier is required (else 400
invalid_request) and validated against the stored client challenge and
method (else 400 invalid_grant); then the provider call step runs. -/
def exchange_with_record (cfg : OAuthConfig) (adapter : ExchangeAdapter)
    (now : Int) (flow' : FlowState) (auth_data : AuthCodeData)
    (code : String) (code_verifier : Option String) : ExchangeOut :=
    if is_entry_expired auth_data.created_at cfg.auth_code_expiry_seconds now then
      ⟨flow', Resp.json 400 "invalid_grant" "Authorization code has expired", none⟩
    else
      if truthyS auth_data.client_code_challenge &&
          truthyS auth_data.client_code_challenge_method then
        if !truthyS code_verifier then
          ⟨flow', Resp.json 400 "invalid_request" "code_verifier required for PKCE flow",
            none⟩
        else if !validate_pkce (code_verifier.getD "")
            (auth_data.client_code_challenge.getD "")
            (auth_data.client_code_challenge_method.getD "") then
          ⟨flow', Resp.json 400 "invalid_grant" "PKCE validation failed", none⟩
        else
          exchange_call_provider adapter flow' auth_data code
      else
        exchange_call_provider adapter flow' auth_data code

/-- exchange_code_for_tokens of OAuthFlow: pop the code record (removal
happens before the expiry and PKCE checks, see exchange_with_record for
the continuation); an absent code is 400 invalid_grant. -/
def exchange_code_for_tokens (cfg : OAuthConfig) (adapter : ExchangeAdapter)
    (now : Int) (flow : FlowState) (code : String) (code_verifier : Option String) :
    ExchangeOut :=
  match dictPop flow.active_codes code with
  | none =>
    ⟨flow, Resp.json 400 "invalid_grant" "Invalid or expired authorization code", none⟩
  | some (auth_data, codes') =>
    exchange_with_record cfg adapter now { flow with active_codes := codes' }
      auth_data code code_verifier

/-! ## Helper lemmas about the handlers -/

theorem exchange_not_found {cfg : OAuthConfig} {adapter : ExchangeAdapter}
    {now : Int} {flow : FlowState} {code : String} {v : Option String}
    (h : dictGet flow.active_codes code = none) :
    exchange_code_for_tokens cfg adapter now flow code v =
      ⟨flow, Resp.json 400 "invalid_grant" "Invalid or expired authorization code",
        none⟩ := by
  simp [exchange_code_for_tokens, dictPop, h]

theorem exchange_found {cfg : OAuthConfig} {adapter : ExchangeAdapter}
    {now : Int} {flow : FlowState} {code : String} {v : Option String}
    {ad : AuthCodeData} (h : dictGet flow.active_codes code = some ad) :
    exchange_code_for_tokens cfg adapter now flow code v =
      exchange_with_record cfg adapter now
        { flow with active_codes := dictErase flow.active_codes code }
        ad code v := by
  simp [exchange_code_for_tokens, dictPop, h]

theorem ECP_flow (adapter : ExchangeAdapter) (flow' : FlowState)
    (ad : AuthCodeData) (code : String) :
    (exchange_call_provider adapter flow' ad code).flow = flow' := by
  unfold exchange_call_provider
  repeat' split
  all_goals rfl

theorem ECP_adapterCall (adapter : ExchangeAdapter) (flow' : FlowState)
    (ad : AuthCodeData) (code : String) :
    (exchange_call_provider adapter flow' ad code).adapterCall =
      some (code, ad.provider_code_verifier, some ad.state) := by
  unfold exchange_call_provider
  repeat' split
  all_goals rfl

theorem EWR_flow (cfg : OAuthConfig) (adapter : ExchangeAdapter) (now : Int)
    (flow' : FlowState) (ad : AuthCodeData) (code : String) (v : Option String) :
    (exchange_with_record cfg adapter now flow' ad code v).flow = flow' := by
  unfold exchange_with_record
  repeat' split
  all_goals first
    | rfl
    | exact ECP_flow adapter flow' ad code

theorem EWR_expired {cfg : OAuthConfig} {adapter : ExchangeAdapter} {now : Int}
    {flow' : FlowState} {ad : AuthCodeData} {code : String} {v : Option String}
    (h : is_entry_expired ad.created_at cfg.auth_code_expiry_seconds now = true) :
    exchange_with_record cfg adapter now flow' ad code v =
      ⟨flow', Resp.json 400 "invalid_grant" "Authorization code has expired", none⟩ := by
  simp [exchange_with_record, h]

theorem EWR_missing_verifier {cfg : OAuthConfig} {adapter : ExchangeAdapter}
    {now : Int} {flow' : FlowState} {ad : AuthCodeData} {code : String}
    {v : Option String}
    (hexp : is_entry_expired ad.created_at cfg.auth_code_expiry_seconds now = false)
    (hcc : truthyS ad.client_code_challenge = true)
    (hccm : truthyS ad.client_code_challenge_method = true)
    (hv : truthyS v = false) :
    exchange_with_record cfg adapter now flow' ad code v =
      ⟨flow', Resp.json 400 "invalid_request" "code_verifier required for PKCE flow",
        none⟩ := by
  simp [exchange_with_record, hexp, hcc, hccm, hv]

theorem EWR_pkce_fail {cfg : OAuthConfig} {adapter : ExchangeAdapter}
    {now : Int} {flow' : FlowState} {ad : AuthCodeData} {code : String}
    {v : Option String}
    (hexp : is_entry_expired ad.created_at cfg.auth_code_expiry_seconds now = false)
    (hcc : truthyS ad.client_code_challenge = true)
    (hccm : truthyS ad.client_code_challenge_method = true)
    (hv : truthyS v = true)
    (hval : validate_pkce (v.getD "") (ad.client_code_challenge.getD "")
      (ad.client_code_challenge_method.getD "") = false) :
    exchange_with_record cfg adapter now flow' ad code v =
      ⟨flow', Resp.json 400 "invalid_grant" "PKCE validation failed", none⟩ := by
  simp [exchange_with_record, hexp, hcc, hccm, hv, hval]

theorem EWR_success_validate {cfg : OAuthConfig} {adapter : ExchangeAdapter}
    {now : Int} {flow' : FlowState} {ad : AuthCodeData} {code : String}
    {v : Option String} {t : TokenData}
    (hcc : truthyS ad.client_code_challenge = true)
    (hccm : truthyS ad.client_code_challenge_method = true)
    (h : (exchange_with_record cfg adapter now flow' ad code v).resp =
      Resp.tokenPayload t) :
    validate_pkce (v.getD "") (ad.client_code_challenge.getD "")
      (ad.client_code_challenge_method.getD "") = true := by
  by_cases hval : validate_pkce (v.getD "") (ad.client_code_challenge.getD "")
      (ad.client_code_challenge_method.getD "") = true
  · exact hval
  · exfalso
    rw [Bool.not_eq_true] at hval
    cases hexp : is_entry_expired ad.created_at cfg.auth_code_expiry_seconds now with
    | true => simp [EWR_expired hexp] at h
    | false =>
      cases htv : truthyS v with
      | false => simp [EWR_missing_verifier hexp hcc hccm htv] at h
      | true => simp [EWR_pkce_fail hexp hcc hccm htv hval] at h

theorem EWR_adapterCall {cfg : OAuthConfig} {adapter : ExchangeAdapter}
    {now : Int} {flow' : FlowState} {ad : AuthCodeData} {code : String}
    {v : Option String} {call : String × Option String × Option String}
    (h : (exchange_with_record cfg adapter now flow' ad code v).adapterCall =
      some call) :
    call = (code, ad.provider_code_verifier, some ad.state) := by
  unfold exchange_with_record at h
  repeat' split at h
  all_goals
    first
      | (rw [ECP_adapterCall] at h
         exact (Option.some_inj.mp h).symm)
      | simp_all

theorem callback_not_found {cfg : OAuthConfig} {now : Int} {flow : FlowState}
    {code state : String} {error : Option String}
    (herr : truthyS error = false)
    (h : dictGet flow.active_states state = none) :
    handle_callback cfg now flow code state error =
      ⟨flow, Resp.json 400 "invalid_state" "Invalid or expired state parameter"⟩ := by
  simp [handle_callback, dictPop, herr, h]

theorem callback_found {cfg : OAuthConfig} {now : Int} {flow : FlowState}
    {code state : String} {error : Option String} {si : StateInfo}
    (herr : truthyS error = false)
    (h : dictGet flow.active_states state = some si) :
    handle_callback cfg now flow code state error =
      callback_with_record cfg now
        { flow with active_states := dictErase flow.active_states state }
        si code state := by
  simp [handle_callback, dictPop, herr, h]

theorem CWR_expired {cfg : OAuthConfig} {now : Int} {flow' : FlowState}
    {si : StateInfo} {code state : String}
    (h : is_entry_expired si.created_at cfg.state_expiry_seconds now = true) :
    callback_with_record cfg now flow' si code state =
      ⟨flow', Resp.json 400 "expired_state" "State parameter has expired"⟩ := by
  simp [callback_with_record, h]

theorem CWR_not_expired_flow {cfg : OAuthConfig} {now : Int} {flow' : FlowState}
    {si : StateInfo} {code state : String}
    (h : is_entry_expired si.created_at cfg.state_expiry_seconds now = false) :
    (callback_with_record cfg now flow' si code state).flow =
      { flow' with active_codes :=
          dictInsert flow'.active_codes code (auth_code_record now code state si) } := by
  cases htr : truthyS si.client_redirect_uri <;>
    simp [callback_with_record, h, htr]

theorem initiate_ok {reqs : PkceRequirements} {now : Int} {flow : FlowState}
    {q : QueryParams} {user_id client_ip : Option String} {state : String}
    {rand : Nat → Nat} {pv pc : String}
    (hcc : truthyS q.code_challenge = true)
    (hccm : truthyS q.code_challenge_method = true)
    (hm : q.code_challenge_method.getD "" = "S256" ∨
      q.code_challenge_method.getD "" = "plain")
    (hgen : generate_provider_compatible_pkce reqs (q.code_challenge_method.getD "")
      rand = .ok (pv, pc)) :
    initiate_authorization reqs now flow q user_id client_ip state rand =
      ⟨{ flow with
          active_states := dictInsert flow.active_states state
            (initiate_state_record now q user_id client_ip (some pv) (some pc)
              q.code_challenge_method) },
        InitResult.redirect state (some pc) q.code_challenge_method⟩ := by
  rcases hm with hm | hm <;> rw [hm] at hgen <;>
    simp [initiate_authorization, initiate_inner, hcc, hccm, hm, hgen]

/-- Error code of a JSON error response, if the response is one. -/
def respError : Resp → Option String
  | Resp.json _ e _ => some e
  | _ => none

/-! ## Claim theorems -/

/-- C1: Dual PKCE at exchange. For an authorization-code record carrying
a truthy client code challenge and method: (1) the exchange responds
with a token payload only if validate_pkce accepts the supplied verifier
against the stored client challenge and method; (2) whenever the
downstream adapter is called, it receives the stored provider verifier,
never the client-supplied one; (3) supplying the provider verifier in
place of the client verifier (that is, a verifier that does not validate
against the client challenge) fails with 400 invalid_grant. -/
theorem C1_dual_pkce_at_exchange
    (cfg : OAuthConfig) (adapter : ExchangeAdapter) (now : Int)
    (flow : FlowState) (code : String) (v : Option String) (ad : AuthCodeData)
    (hget : dictGet flow.active_codes code = some ad)
    (hcc : truthyS ad.client_code_challenge = true)
    (hccm : truthyS ad.client_code_challenge_method = true) :
    (∀ t : TokenData,
      (exchange_code_for_tokens cfg adapter now flow code v).resp =
        Resp.tokenPayload t →
      validate_pkce (v.getD "") (ad.client_code_challenge.getD "")
        (ad.client_code_challenge_method.getD "") = true) ∧
    (∀ call, (exchange_code_for_tokens cfg adapter now flow code v).adapterCall =
        some call → call.2.1 = ad.provider_code_verifier) ∧
    (is_entry_expired ad.created_at cfg.auth_code_expiry_seconds now = false →
      truthyS ad.provider_code_verifier = true →
      validate_pkce (ad.provider_code_verifier.getD "")
        (ad.client_code_challenge.getD "")
        (ad.client_code_challenge_method.getD "") = false →
      (exchange_code_for_tokens cfg adapter now flow code
          ad.provider_code_verifier).resp =
        Resp.json 400 "invalid_grant" "PKCE validation failed") := by
  refine ⟨?_, ?_, ?_⟩
  · intro t h
    rw [exchange_found hget] at h
    exact EWR_success_validate hcc hccm h
  · intro call h
    rw [exchange_found hget] at h
    rw [EWR_adapterCall h]
  · intro hexp hpv hval
    rw [exchange_found hget, EWR_pkce_fail hexp hcc hccm hpv hval]

/-- Concrete 43-character client verifier used by the witnesses (plain
method, so it is also its own challenge). -/
def pvW : String := "abababababababababababababababababababababa"

/-- Concrete code record with a plain-method client challenge and a
distinct provider verifier. -/
def adW : AuthCodeData :=
  { code := "c1", state := "s1", user_id := some "u", created_at := 0,
    client_code_challenge := some pvW,
    client_code_challenge_method := some "plain",
    provider_code_verifier := some "providerverifierproviderverifierproviderver" }

def flowW : FlowState := { active_states := [], active_codes := [("c1", adW)] }

/-- Adapter that always succeeds with a one-entry token payload. -/
def adapterOk : ExchangeAdapter :=
  fun _ _ _ => .ok (true, some [("access_token", "tok")])

/-- C1 witness: the dual-PKCE theorem applied to a concrete flow holding
one code record with a plain client challenge. -/
theorem C1_witness :
    (∀ t : TokenData,
      (exchange_code_for_tokens {} adapterOk 1 flowW "c1" (some pvW)).resp =
        Resp.tokenPayload t →
      validate_pkce ((some pvW).getD "") (adW.client_code_challenge.getD "")
        (adW.client_code_challenge_method.getD "") = true) ∧
    (∀ call, (exchange_code_for_tokens {} adapterOk 1 flowW "c1"
        (some pvW)).adapterCall =
        some call → call.2.1 = adW.provider_code_verifier) ∧
    (is_entry_expired adW.created_at ({} : OAuthConfig).auth_code_expiry_seconds 1
        = false →
      truthyS adW.provider_code_verifier = true →
      validate_pkce (adW.provider_code_verifier.getD "")
        (adW.client_code_challenge.getD "")
        (adW.client_code_challenge_method.getD "") = false →
      (exchange_code_for_tokens {} adapterOk 1 flowW "c1"
          adW.provider_code_verifier).resp =
        Resp.json 400 "invalid_grant" "PKCE validation failed") :=
  C1_dual_pkce_at_exchange {} adapterOk 1 flowW "c1" (some pvW) adW
    (by decide) (by decide) (by decide)

/-- C3: Concurrent single-use enforcement, under the serialization model
justified by the source: the membership test and pop on the shared code
dictionary run with no suspension point between them, so the two
concurrent exchange calls serialize at the pop. For either order
(the theorem quantifies over both call sites symmetrically), the call
that pops second receives 400 invalid_grant, and the two calls can never
both return a token payload. -/
theorem C3_concurrent_exchange_single_use
    (cfg : OAuthConfig) (a1 a2 : ExchangeAdapter) (now1 now2 : Int)
    (flow : FlowState) (code : String) (v1 v2 : Option String)
    (ad : AuthCodeData)
    (hget : dictGet flow.active_codes code = some ad) :
    ((exchange_code_for_tokens cfg a2 now2
        (exchange_code_for_tokens cfg a1 now1 flow code v1).flow code v2).resp =
      Resp.json 400 "invalid_grant" "Invalid or expired authorization code") ∧
    (∀ t1 t2 : TokenData,
      ¬((exchange_code_for_tokens cfg a1 now1 flow code v1).resp =
          Resp.tokenPayload t1 ∧
        (exchange_code_for_tokens cfg a2 now2
          (exchange_code_for_tokens cfg a1 now1 flow code v1).flow code
          v2).resp = Resp.tokenPayload t2)) := by
  have h1 : (exchange_code_for_tokens cfg a1 now1 flow code v1).flow =
      { flow with active_codes := dictErase flow.active_codes code } := by
    rw [exchange_found hget, EWR_flow]
  have h2 : (exchange_code_for_tokens cfg a2 now2
      (exchange_code_for_tokens cfg a1 now1 flow code v1).flow code v2).resp =
      Resp.json 400 "invalid_grant" "Invalid or expired authorization code" := by
    rw [h1, exchange_not_found (dictGet_erase_self flow.active_codes code)]
  refine ⟨h2, ?_⟩
  intro t1 t2 hc
  rw [h2] at hc
  exact absurd hc.2 (by simp)

/-- C3 witness: two serialized exchanges on the concrete one-record
flow; the second receives invalid_grant. -/
theorem C3_witness :
    ((exchange_code_for_tokens {} adapterOk 2
        (exchange_code_for_tokens {} adapterOk 1 flowW "c1" (some pvW)).flow "c1"
        (some pvW)).resp =
      Resp.json 400 "invalid_grant" "Invalid or expired authorization code") ∧
    (∀ t1 t2 : TokenData,
      ¬((exchange_code_for_tokens {} adapterOk 1 flowW "c1" (some pvW)).resp =
          Resp.tokenPayload t1 ∧
        (exchange_code_for_tokens {} adapterOk 2
          (exchange_code_for_tokens {} adapterOk 1 flowW "c1" (some pvW)).flow
          "c1" (some pvW)).resp = Resp.tokenPayload t2)) :=
  C3_concurrent_exchange_single_use {} adapterOk adapterOk 1 2 flowW "c1"
    (some pvW) (some pvW) adW (by decide)

/-- C5: Authoritative expiry at consume time. A state record whose
created_at is at least ttl+1 seconds in the past is rejected with the
400 expiry error by handle_callback even though it is still present in
the store (presence is the hypothesis; no sweep is involved), and the
same holds for authorization codes at exchange. -/
theorem C5_expiry_rechecked_at_consume :
    (∀ (cfg : OAuthConfig) (now : Int) (flow : FlowState) (code state : String)
      (error : Option String) (si : StateInfo),
      truthyS error = false →
      dictGet flow.active_states state = some si →
      cfg.state_expiry_seconds + 1 ≤ now - si.created_at →
      (handle_callback cfg now flow code state error).resp =
        Resp.json 400 "expired_state" "State parameter has expired") ∧
    (∀ (cfg : OAuthConfig) (adapter : ExchangeAdapter) (now : Int)
      (flow : FlowState) (code : String) (v : Option String) (ad : AuthCodeData),
      dictGet flow.active_codes code = some ad →
      cfg.auth_code_expiry_seconds + 1 ≤ now - ad.created_at →
      (exchange_code_for_tokens cfg adapter now flow code v).resp =
        Resp.json 400 "invalid_grant" "Authorization code has expired") := by
  constructor
  · intro cfg now flow code state error si herr hget hold
    have he : is_entry_expired si.created_at cfg.state_expiry_seconds now = true := by
      simp only [is_entry_expired, decide_eq_true_eq]
      omega
    rw [callback_found herr hget, CWR_expired he]
  · intro cfg adapter now flow code v ad hget hold
    have he : is_entry_expired ad.created_at cfg.auth_code_expiry_seconds now = true := by
      simp only [is_entry_expired, decide_eq_true_eq]
      omega
    rw [exchange_found hget, EWR_expired he]

/-- Concrete state record stored at time 0, used by the expiry
witnesses. -/
def siW : StateInfo :=
  { created_at := 0, user_id := some "u", client_ip := none,
    client_code_challenge := some pvW,
    client_code_challenge_method := some "plain",
    provider_code_verifier := some "providerverifierproviderverifierproviderver",
    provider_code_challenge := some "providerverifierproviderverifierproviderver",
    provider_code_challenge_method := some "plain",
    client_redirect_uri := none }

def flowSW : FlowState := { active_states := [("s1", siW)], active_codes := [] }

/-- C5 witness: a state record aged ttl+1 seconds is rejected as
expired at callback, and a code record aged ttl+1 seconds is rejected
as expired at exchange, both while still stored. -/
theorem C5_witness :
    ((handle_callback {} 601 flowSW "c1" "s1" none).resp =
      Resp.json 400 "expired_state" "State parameter has expired") ∧
    ((exchange_code_for_tokens {} adapterOk 601 flowW "c1" (some pvW)).resp =
      Resp.json 400 "invalid_grant" "Authorization code has expired") :=
  ⟨C5_expiry_rechecked_at_consume.1 {} 601 flowSW "c1" "s1" none siW
      (by decide) (by decide) (by decide),
    C5_expiry_rechecked_at_consume.2 {} adapterOk 601 flowW "c1" (some pvW) adW
      (by decide) (by decide)⟩

/-- C10: Consumption is destructive even on the expiry branch. When the
record is present but expired, the handler removes it (the pop precedes
the expiry check) and only then responds with the expiry error, so a
second consumption with the same token or code takes the not-found
branch (invalid_state, resp. the invalid-or-expired invalid_grant
message), not the expired branch. -/
theorem C10_expired_consume_is_destructive :
    (∀ (cfg : OAuthConfig) (now now2 : Int) (flow : FlowState)
      (code code2 state : String) (error error2 : Option String) (si : StateInfo),
      truthyS error = false →
      truthyS error2 = false →
      dictGet flow.active_states state = some si →
      is_entry_expired si.created_at cfg.state_expiry_seconds now = true →
      (handle_callback cfg now flow code state error =
        ⟨{ flow with active_states := dictErase flow.active_states state },
          Resp.json 400 "expired_state" "State parameter has expired"⟩) ∧
      (handle_callback cfg now2
        { flow with active_states := dictErase flow.active_states state }
        code2 state error2).resp =
        Resp.json 400 "invalid_state" "Invalid or expired state parameter") ∧
    (∀ (cfg : OAuthConfig) (adapter adapter2 : ExchangeAdapter) (now now2 : Int)
      (flow : FlowState) (code : String) (v v2 : Option String) (ad : AuthCodeData),
      dictGet flow.active_codes code = some ad →
      is_entry_expired ad.created_at cfg.auth_code_expiry_seconds now = true →
      (exchange_code_for_tokens cfg adapter now flow code v =
        ⟨{ flow with active_codes := dictErase flow.active_codes code },
          Resp.json 400 "invalid_grant" "Authorization code has expired", none⟩) ∧
      (exchange_code_for_tokens cfg adapter2 now2
        { flow with active_codes := dictErase flow.active_codes code }
        code v2).resp =
        Resp.json 400 "invalid_grant" "Invalid or expired authorization code") := by
  constructor
  · intro cfg now now2 flow code code2 state error error2 si herr herr2 hget hexp
    refine ⟨?_, ?_⟩
    · rw [callback_found herr hget, CWR_expired hexp]
    · rw [callback_not_found herr2 (dictGet_erase_self flow.active_states state)]
  · intro cfg adapter adapter2 now now2 flow code v v2 ad hget hexp
    refine ⟨?_, ?_⟩
    · rw [exchange_found hget, EWR_expired hexp]
    · rw [exchange_not_found (dictGet_erase_self flow.active_codes code)]

/-- C10 witness: expired consumption on the concrete flows mutates the
store and a second attempt reaches the not-found branch. -/
theorem C10_witness :
    ((handle_callback {} 601 flowSW "c1" "s1" none =
      ⟨{ flowSW with active_states := dictErase flowSW.active_states "s1" },
        Resp.json 400 "expired_state" "State parameter has expired"⟩) ∧
      (handle_callback {} 602
        { flowSW with active_states := dictErase flowSW.active_states "s1" }
        "c2" "s1" none).resp =
        Resp.json 400 "invalid_state" "Invalid or expired state parameter") ∧
    ((exchange_code_for_tokens {} adapterOk 601 flowW "c1" (some pvW) =
      ⟨{ flowW with active_codes := dictErase flowW.active_codes "c1" },
        Resp.json 400 "invalid_grant" "Authorization code has expired", none⟩) ∧
      (exchange_code_for_tokens {} adapterOk 602
        { flowW with active_codes := dictErase flowW.active_codes "c1" }
        "c1" (some pvW)).resp =
        Resp.json 400 "invalid_grant" "Invalid or expired authorization code") :=
  ⟨C10_expired_consume_is_destructive.1 {} 601 602 flowSW "c1" "c2" "s1" none none
      siW (by decide) (by decide) (by decide) (by decide),
    C10_expired_consume_is_destructive.2 {} adapterOk adapterOk 601 602 flowW "c1"
      (some pvW) (some pvW) adW (by decide) (by decide)⟩

/-- Concrete code record without client PKCE. -/
def adNoPkce : AuthCodeData :=
  { code := "c4", state := "s4", user_id := none, created_at := 0,
    client_code_challenge := none, client_code_challenge_method := none,
    provider_code_verifier := none }

def flowNP : FlowState := { active_states := [], active_codes := [("c4", adNoPkce)] }

/-- Adapter whose call raises an exception carrying internal detail in
its message. -/
def adapterRaise : ExchangeAdapter :=
  fun _ _ _ => .error "Traceback: ValueError: internal secret detail"

/-- C4 counterexample: the claim says a 500 response carries a generic
description and never the exception message; on this concrete input the
exchange handler catches the adapter exception and places its message
(str(e)) verbatim into error_description, so the body does contain the
exception message and the description is not generic. -/
theorem C4_counterexample :
    (exchange_code_for_tokens {} adapterRaise 1 flowNP "c4" none).resp =
      Resp.json 500 "server_error" "Traceback: ValueError: internal secret detail" := by
  decide

/-- C4 amended: an unanticipated exception during exchange is caught and
returned as status 500 with error code server_error, but the
error_description is str(e), the exception message itself — exception
messages are leaked to the caller (only the catch and the status/code
match the original claim). -/
theorem C4_exception_message_leaked
    (cfg : OAuthConfig) (adapter : ExchangeAdapter) (now : Int)
    (flow : FlowState) (code : String) (v : Option String) (ad : AuthCodeData)
    (msg : String)
    (hget : dictGet flow.active_codes code = some ad)
    (hexp : is_entry_expired ad.created_at cfg.auth_code_expiry_seconds now = false)
    (hnopkce : (truthyS ad.client_code_challenge &&
      truthyS ad.client_code_challenge_method) = false)
    (hraise : adapter code ad.provider_code_verifier (some ad.state) =
      .error msg) :
    (exchange_code_for_tokens cfg adapter now flow code v).resp =
      Resp.json 500 "server_error" msg := by
  rw [exchange_found hget]
  unfold exchange_with_record
  simp [hexp, hnopkce, exchange_call_provider, hraise]

/-- C4 witness: the amended theorem applied to the concrete raising
adapter. -/
theorem C4_witness :
    (exchange_code_for_tokens {} adapterRaise 2 flowNP "c4" (some "vvv")).resp =
      Resp.json 500 "server_error" "Traceback: ValueError: internal secret detail" :=
  C4_exception_message_leaked {} adapterRaise 2 flowNP "c4" (some "vvv") adNoPkce
    "Traceback: ValueError: internal secret detail"
    (by decide) (by decide) (by decide) rfl

/-- C6 counterexample: the claim says a missing client_code_verifier
fails with the InvalidGrant error code; on this concrete input (code
record carrying a client challenge, no verifier supplied) the exchange
handler responds with error code invalid_request, which is a different
error code than invalid_grant. -/
theorem C6_counterexample :
    respError (exchange_code_for_tokens {} adapterOk 1 flowW "c1" none).resp =
      some "invalid_request" ∧
    ("invalid_request" : String) ≠ "invalid_grant" := by
  constructor
  · decide
  · decide

/-- C6 amended: when the consumed record carries a truthy client
challenge and method, a missing (falsy) client_code_verifier fails with
400 invalid_request ("code_verifier required for PKCE flow"), while a
supplied verifier that fails PKCE validation against the stored client
challenge and method fails with 400 invalid_grant
("PKCE validation failed"). -/
theorem C6_pkce_failure_codes
    (cfg : OAuthConfig) (adapter : ExchangeAdapter) (now : Int)
    (flow : FlowState) (code : String) (v : Option String) (ad : AuthCodeData)
    (hget : dictGet flow.active_codes code = some ad)
    (hexp : is_entry_expired ad.created_at cfg.auth_code_expiry_seconds now = false)
    (hcc : truthyS ad.client_code_challenge = true)
    (hccm : truthyS ad.client_code_challenge_method = true) :
    (truthyS v = false →
      (exchange_code_for_tokens cfg adapter now flow code v).resp =
        Resp.json 400 "invalid_request" "code_verifier required for PKCE flow") ∧
    (truthyS v = true →
      validate_pkce (v.getD "") (ad.client_code_challenge.getD "")
        (ad.client_code_challenge_method.getD "") = false →
      (exchange_code_for_tokens cfg adapter now flow code v).resp =
        Resp.json 400 "invalid_grant" "PKCE validation failed") := by
  constructor
  · intro hv
    rw [exchange_found hget, EWR_missing_verifier hexp hcc hccm hv]
  · intro hv hval
    rw [exchange_found hget, EWR_pkce_fail hexp hcc hccm hv hval]

/-- C6 witness: the amended theorem applied to the concrete one-record
flow with a plain client challenge. -/
theorem C6_witness :
    (truthyS none = false →
      (exchange_code_for_tokens {} adapterOk 1 flowW "c1" none).resp =
        Resp.json 400 "invalid_request" "code_verifier required for PKCE flow") ∧
    (truthyS none = true →
      validate_pkce ((none : Option String).getD "")
        (adW.client_code_challenge.getD "")
        (adW.client_code_challenge_method.getD "") = false →
      (exchange_code_for_tokens {} adapterOk 1 flowW "c1" none).resp =
        Resp.json 400 "invalid_grant" "PKCE validation failed") :=
  C6_pkce_failure_codes {} adapterOk 1 flowW "c1" none adW
    (by decide) (by decide) (by decide) (by decide)

/-- C2: Single-use state round-trip. A state token stored by initiate is
retrievable as exactly the stored record (A); a first callback before
expiry removes it (B, C) and stores the authorization code record
copying user_id and both PKCE sides (D); a second callback with the same
token returns 400 invalid_state (E); analogously, a first exchange pops
the code record (F) and a second exchange with the same code returns the
not-found 400 invalid_grant (G). -/
theorem C2_state_roundtrip_single_use
    (cfg : OAuthConfig) (reqs : PkceRequirements)
    (adapter adapter2 : ExchangeAdapter)
    (now1 now2 now3 now4 now5 : Int) (flow0 : FlowState) (q : QueryParams)
    (user_id client_ip : Option String) (tok : String) (rand : Nat → Nat)
    (pv pc : String) (code code2 : String) (v v2 : Option String)
    (hcc : truthyS q.code_challenge = true)
    (hccm : truthyS q.code_challenge_method = true)
    (hm : q.code_challenge_method.getD "" = "S256" ∨
      q.code_challenge_method.getD "" = "plain")
    (hgen : generate_provider_compatible_pkce reqs
      (q.code_challenge_method.getD "") rand = .ok (pv, pc))
    (hfresh : is_entry_expired now1 cfg.state_expiry_seconds now2 = false) :
    (dictGet (initiate_authorization reqs now1 flow0 q user_id client_ip tok
        rand).flow.active_states tok =
      some (initiate_state_record now1 q user_id client_ip (some pv) (some pc)
        q.code_challenge_method)) ∧
    ((handle_callback cfg now2 (initiate_authorization reqs now1 flow0 q user_id
        client_ip tok rand).flow code tok none).flow =
      { active_states := dictErase (dictInsert flow0.active_states tok
          (initiate_state_record now1 q user_id client_ip (some pv) (some pc)
            q.code_challenge_method)) tok,
        active_codes := dictInsert flow0.active_codes code
          (auth_code_record now2 code tok
            (initiate_state_record now1 q user_id client_ip (some pv) (some pc)
              q.code_challenge_method)) }) ∧
    (dictGet (dictErase (dictInsert flow0.active_states tok
        (initiate_state_record now1 q user_id client_ip (some pv) (some pc)
          q.code_challenge_method)) tok) tok = none) ∧
    (dictGet (dictInsert flow0.active_codes code
        (auth_code_record now2 code tok
          (initiate_state_record now1 q user_id client_ip (some pv) (some pc)
            q.code_challenge_method))) code =
      some (auth_code_record now2 code tok
        (initiate_state_record now1 q user_id client_ip (some pv) (some pc)
          q.code_challenge_method))) ∧
    ((handle_callback cfg now3
        { active_states := dictErase (dictInsert flow0.active_states tok
            (initiate_state_record now1 q user_id client_ip (some pv) (some pc)
              q.code_challenge_method)) tok,
          active_codes := dictInsert flow0.active_codes code
            (auth_code_record now2 code tok
              (initiate_state_record now1 q user_id client_ip (some pv) (some pc)
                q.code_challenge_method)) }
        code2 tok none).resp =
      Resp.json 400 "invalid_state" "Invalid or expired state parameter") ∧
    ((exchange_code_for_tokens cfg adapter now4
        { active_states := dictErase (dictInsert flow0.active_states tok
            (initiate_state_record now1 q user_id client_ip (some pv) (some pc)
              q.code_challenge_method)) tok,
          active_codes := dictInsert flow0.active_codes code
            (auth_code_record now2 code tok
              (initiate_state_record now1 q user_id client_ip (some pv) (some pc)
                q.code_challenge_method)) }
        code v).flow.active_codes =
      dictErase (dictInsert flow0.active_codes code
        (auth_code_record now2 code tok
          (initiate_state_record now1 q user_id client_ip (some pv) (some pc)
            q.code_challenge_method))) code) ∧
    ((exchange_code_for_tokens cfg adapter2 now5
        { active_states := dictErase (dictInsert flow0.active_states tok
            (initiate_state_record now1 q user_id client_ip (some pv) (some pc)
              q.code_challenge_method)) tok,
          active_codes := dictErase (dictInsert flow0.active_codes code
            (auth_code_record now2 code tok
              (initiate_state_record now1 q user_id client_ip (some pv) (some pc)
                q.code_challenge_method))) code }
        code v2).resp =
      Resp.json 400 "invalid_grant" "Invalid or expired authorization code") := by
  have hi := @initiate_ok reqs now1 flow0 q user_id client_ip tok rand pv pc
    hcc hccm hm hgen
  have hfresh2 : is_entry_expired
      (initiate_state_record now1 q user_id client_ip (some pv) (some pc)
        q.code_challenge_method).created_at cfg.state_expiry_seconds now2 =
      false := by
    simpa [initiate_state_record] using hfresh
  rw [hi]
  dsimp only
  have hcb := @callback_found cfg now2
    { flow0 with
        active_states :=
          dictInsert flow0.active_states tok
            (initiate_state_record now1 q user_id client_ip (some pv) (some pc)
              q.code_challenge_method) }
    code tok none
    (initiate_state_record now1 q user_id client_ip (some pv) (some pc)
      q.code_challenge_method)
    rfl (dictGet_insert_self _ _ _)
  rw [hcb, CWR_not_expired_flow hfresh2]
  refine ⟨dictGet_insert_self _ _ _, rfl, dictGet_erase_self _ _,
    dictGet_insert_self _ _ _, ?_, ?_, ?_⟩
  · rw [@callback_not_found cfg now3
      { active_states := dictErase (dictInsert flow0.active_states tok
          (initiate_state_record now1 q user_id client_ip (some pv) (some pc)
            q.code_challenge_method)) tok,
        active_codes := dictInsert flow0.active_codes code
          (auth_code_record now2 code tok
            (initiate_state_record now1 q user_id client_ip (some pv) (some pc)
              q.code_challenge_method)) }
      code2 tok none rfl (dictGet_erase_self _ _)]
  · rw [@exchange_found cfg adapter now4
      { active_states := dictErase (dictInsert flow0.active_states tok
          (initiate_state_record now1 q user_id client_ip (some pv) (some pc)
            q.code_challenge_method)) tok,
        active_codes := dictInsert flow0.active_codes code
          (auth_code_record now2 code tok
            (initiate_state_record now1 q user_id client_ip (some pv) (some pc)
              q.code_challenge_method)) }
      code v
      (auth_code_record now2 code tok
        (initiate_state_record now1 q user_id client_ip (some pv) (some pc)
          q.code_challenge_method))
      (dictGet_insert_self _ _ _), EWR_flow]
  · rw [@exchange_not_found cfg adapter2 now5
      { active_states := dictErase (dictInsert flow0.active_states tok
          (initiate_state_record now1 q user_id client_ip (some pv) (some pc)
            q.code_challenge_method)) tok,
        active_codes := dictErase (dictInsert flow0.active_codes code
          (auth_code_record now2 code tok
            (initiate_state_record now1 q user_id client_ip (some pv) (some pc)
              q.code_challenge_method))) code }
      code v2 (dictGet_erase_self _ _)]

def qW : QueryParams :=
  { code_challenge := some pvW, code_challenge_method := some "plain",
    redirect_uri := none }

def reqsW : PkceRequirements :=
  { min_length := some 43, max_length := some 43, character_set := some "ab" }

def emptyFlow : FlowState := { active_states := [], active_codes := [] }

/-- The state record stored by the concrete initiate of the C2
witness. -/
def rW : StateInfo :=
  initiate_state_record 0 qW (some "u") none (some pvW) (some pvW)
    qW.code_challenge_method

/-- The flow after the concrete callback of the C2 witness. -/
def postCallbackW : FlowState :=
  { active_states := dictErase (dictInsert emptyFlow.active_states "t1" rW) "t1",
    active_codes := dictInsert emptyFlow.active_codes "abc"
      (auth_code_record 10 "abc" "t1" rW) }

/-- C2 witness: the round-trip theorem applied to a concrete initiate /
callback / exchange chain with the plain method. -/
theorem C2_witness :
    (dictGet (initiate_authorization reqsW 0 emptyFlow qW (some "u") none "t1"
        (fun i => i)).flow.active_states "t1" = some rW) ∧
    ((handle_callback {} 10 (initiate_authorization reqsW 0 emptyFlow qW
        (some "u") none "t1" (fun i => i)).flow "abc" "t1" none).flow =
      postCallbackW) ∧
    (dictGet postCallbackW.active_states "t1" = none) ∧
    (dictGet postCallbackW.active_codes "abc" =
      some (auth_code_record 10 "abc" "t1" rW)) ∧
    ((handle_callback {} 11 postCallbackW "abc" "t1" none).resp =
      Resp.json 400 "invalid_state" "Invalid or expired state parameter") ∧
    ((exchange_code_for_tokens {} adapterOk 12 postCallbackW "abc"
        (some pvW)).flow.active_codes =
      dictErase postCallbackW.active_codes "abc") ∧
    ((exchange_code_for_tokens {} adapterOk 13
        { active_states := postCallbackW.active_states,
          active_codes := dictErase postCallbackW.active_codes "abc" }
        "abc" none).resp =
      Resp.json 400 "invalid_grant" "Invalid or expired authorization code") :=
  C2_state_roundtrip_single_use {} reqsW adapterOk adapterOk 0 10 11 12 13
    emptyFlow qW (some "u") none "t1" (fun i => i) pvW pvW "abc" "abc"
    (some pvW) none (by decide) (by decide) (Or.inr rfl) rfl (by decide)

/-- C7: PKCE generate/validate round-trip. For every supported method,
length in [43,128] and non-empty charset, generate_pkce_pair returns a
verifier of exactly the requested length whose characters are all drawn
from the charset, together with the challenge computed per the method,
and validate_pkce accepts the returned pair. -/
theorem C7_generate_validate_roundtrip
    (method : String) (length : Nat) (charset : String) (rand : Nat → Nat)
    (hmeth : method = "S256" ∨ method = "plain")
    (hlo : 43 ≤ length) (hhi : length ≤ 128) (hcs : charset.data ≠ []) :
    ∃ verifier challenge,
      generate_pkce_pair method length (some charset) rand =
        .ok (verifier, challenge) ∧
      verifier.length = length ∧
      (∀ c ∈ verifier.data, c ∈ charset.data) ∧
      challenge = (if method = "S256" then s256Challenge verifier else verifier) ∧
      validate_pkce verifier challenge method = true := by
  have hguard : ¬(length < 43 ∨ length > 128) := by omega
  have hlenpos : 0 < charset.data.length := List.length_pos.mpr hcs
  have hemp : charset.data.isEmpty = false := by
    cases h : charset.data with
    | nil => exact absurd h hcs
    | cons a l => rfl
  have hmem : ∀ c ∈ (String.mk ((List.range length).map fun i =>
      charset.data.getD (rand i % charset.data.length) 'a')).data,
      c ∈ charset.data := by
    intro c hc
    obtain ⟨i, hi, hfi⟩ := List.mem_map.mp hc
    have hm : rand i % charset.data.length < charset.data.length :=
      Nat.mod_lt _ hlenpos
    rw [← hfi, List.getD_eq_getElem charset.data 'a' hm]
    exact List.getElem_mem hm
  rcases hmeth with hS | hP
  · subst hS
    refine ⟨String.mk ((List.range length).map fun i =>
        charset.data.getD (rand i % charset.data.length) 'a'),
      s256Challenge (String.mk ((List.range length).map fun i =>
        charset.data.getD (rand i % charset.data.length) 'a')),
      ?_, ?_, hmem, ?_, ?_⟩
    · simp [generate_pkce_pair, if_neg hguard, hemp]
    · simp
    · simp
    · simp [validate_pkce, validate_pkce_body]
  · subst hP
    refine ⟨String.mk ((List.range length).map fun i =>
        charset.data.getD (rand i % charset.data.length) 'a'),
      String.mk ((List.range length).map fun i =>
        charset.data.getD (rand i % charset.data.length) 'a'),
      ?_, ?_, hmem, ?_, ?_⟩
    · simp [generate_pkce_pair, if_neg hguard, hemp]
    · simp
    · simp
    · simp [validate_pkce, validate_pkce_body]

/-- C7 witness: the round-trip theorem applied at the plain method,
length 43 and the two-character charset ab. -/
theorem C7_witness :
    ∃ verifier challenge,
      generate_pkce_pair "plain" 43 (some "ab") (fun i => i) =
        .ok (verifier, challenge) ∧
      verifier.length = 43 ∧
      (∀ c ∈ verifier.data, c ∈ ("ab" : String).data) ∧
      challenge =
        (if ("plain" : String) = "S256" then s256Challenge verifier
          else verifier) ∧
      validate_pkce verifier challenge "plain" = true :=
  C7_generate_validate_roundtrip "plain" 43 "ab" (fun i => i)
    (Or.inr rfl) (by decide) (by decide) (by decide)

/-- C8: validate_pkce is total and never propagates errors: on every
input it yields a boolean, the body of its try block never produces an
error, and an unsupported method yields false. -/
theorem C8_validate_total (v c m : String) :
    (validate_pkce v c m = true ∨ validate_pkce v c m = false) ∧
    (∃ b, validate_pkce_body v c m = .ok b) ∧
    (m ≠ "S256" → m ≠ "plain" → validate_pkce v c m = false) := by
  refine ⟨?_, ?_, ?_⟩
  · rcases Bool.eq_false_or_eq_true (validate_pkce v c m) with h | h
    · exact Or.inl h
    · exact Or.inr h
  · by_cases h1 : m = "S256"
    · exact ⟨s256Challenge v == c, by simp [validate_pkce_body, h1]⟩
    · by_cases h2 : m = "plain"
      · exact ⟨v == c, by simp [validate_pkce_body, h1, h2]⟩
      · exact ⟨false, by simp [validate_pkce_body, h1, h2]⟩
  · intro h1 h2
    simp [validate_pkce, validate_pkce_body, h1, h2]

/-- C8 witness: the totality theorem applied at an unsupported method,
showing a boolean result, a non-error body, and the false result. -/
theorem C8_witness :
    (validate_pkce "x" "y" "md5" = true ∨ validate_pkce "x" "y" "md5" = false) ∧
    (∃ b, validate_pkce_body "x" "y" "md5" = .ok b) ∧
    ("md5" ≠ "S256" → "md5" ≠ "plain" → validate_pkce "x" "y" "md5" = false) :=
  C8_validate_total "x" "y" "md5"

/-- C9: Token Holder expiry invariant. The margin constant is 300
seconds, and for every holder state and nonnegative current time,
is_token_expired holds exactly when there is no (or an empty) access
token, or no expires_at, or now plus the margin is at least the stored
expiry. -/
theorem C9_token_expiry_invariant (h : TokenHolder) (now : Int)
    (hnow : 0 ≤ now) :
    TOKEN_EXPIRY_MARGIN = 300 ∧
    (is_token_expired h now = true ↔
      (h.access_token = none ∨ h.access_token = some "" ∨ h.expires_at = none ∨
        ∃ e : Int, h.expires_at = some e ∧ now + TOKEN_EXPIRY_MARGIN ≥ e)) := by
  refine ⟨rfl, ?_⟩
  cases hat : h.access_token with
  | none => simp [is_token_expired, truthyS, hat]
  | some s =>
    by_cases hs : s = ""
    · subst hs
      simp [is_token_expired, truthyS, hat]
      exact Or.inl (Or.inl rfl)
    · have hse : s.isEmpty = false :=
        Bool.eq_false_iff.mpr fun hh => hs ((String.isEmpty_iff s).mp hh)
      have hts : truthyS (some s) = true := by
        simp [truthyS, hse]
      cases hea : h.expires_at with
      | none => simp [is_token_expired, truthyI, hat, hea, hts, hs]
      | some e =>
        by_cases he : e = 0
        · subst he
          simp [is_token_expired, truthyI, hat, hea, hts, hs, TOKEN_EXPIRY_MARGIN]
          omega
        · simp [is_token_expired, truthyI, hat, hea, hts, hs, he,
            TOKEN_EXPIRY_MARGIN]

/-- Concrete token holder of the C9 witness: a token that expires within
the margin. -/
def thW : TokenHolder :=
  { access_token := some "t", refresh_token := none, expires_at := some 100 }

/-- C9 witness: the invariant applied to a concrete holder whose token
expires within the margin. -/
theorem C9_witness :
    TOKEN_EXPIRY_MARGIN = 300 ∧
    (is_token_expired thW 0 = true ↔
      (thW.access_token = none ∨ thW.access_token = some "" ∨
        thW.expires_at = none ∨
        ∃ e : Int, thW.expires_at = some e ∧ 0 + TOKEN_EXPIRY_MARGIN ≥ e)) :=
  C9_token_expiry_invariant thW 0 (by decide)

end OAuthCore
